import Mathlib

/-!
Shallow embedding of the ODBC storage backend of aries-askar
(src/askar-storage/src/backend/odbc/mod.rs) and proofs about its
profile-key lifecycle and encrypted-entry CRUD operations.

The database state is modelled by the logical tables described by the
persisted layout (config, profiles, items, items_tags); each backend or
session operation is translated into a pure function over that state.
External collaborators (the entry/key codec in crate::protect, the helpers
in db_utils, the schema constraints from the provision module) are not part
of the analysed source tree and are modelled from the specification at
their interface boundary, as marked on each such definition.
-/

namespace Odbc

/-- Error taxonomy of the storage crate (spec section 7): the kinds used by
the ODBC backend source. -/
inductive ErrorKind
  | NotFound
  | Duplicate
  | Crypto
  | Unsupported
  | Backend
deriving DecidableEq

/-- An error value: a kind plus the message passed to err_msg in the source. -/
structure Error where
  kind : ErrorKind
  msg : String
deriving DecidableEq

/-- Modelled from the spec: the Crypto failure raised by the key codec when
unwrapping fails (wrong store key or corrupted blob); crate::protect is not
under the analysed source tree. -/
def cryptoErr : Error := ⟨ErrorKind.Crypto, "Crypto error"⟩

/-- A backend storage failure, used by the fault model for injected
storage-write failures. -/
def backendErr : Error := ⟨ErrorKind.Backend, "Storage error"⟩

/-- Modelled from the spec: the encrypted-at-rest form of a profile key is
the pair of the plaintext profile key identity and the store key it was
wrapped under (deterministic wrap; the codec in crate::protect is not under
the analysed source tree). -/
structure WrappedKey where
  pkey : Nat
  skey : Nat
deriving DecidableEq

/-- Modelled from the spec: encode_profile_key (db_utils) wraps a profile
key under a store key. -/
def encode_profile_key (pk : Nat) (sk : Nat) : WrappedKey := ⟨pk, sk⟩

/-- Modelled from the spec: unwrap of a wrapped profile key under a store
key; fails with a Crypto error exactly when the supplied store key is not
the one the blob was wrapped under. -/
def unwrap_key (storeKey : Nat) (w : WrappedKey) : Except Error Nat :=
  if w.skey = storeKey then Except.ok w.pkey else Except.error cryptoErr

/-- Modelled from the spec (section 4.1): the process-wide key cache of
crate::protect, holding the current store key and a mapping from profile
name to profile id and plaintext profile key. -/
structure KeyCache where
  store_key : Nat
  profiles : List (String × Int × Nat)
deriving DecidableEq

/-- Modelled from the spec: cache lookup by profile name. -/
def KeyCache.get_profile (c : KeyCache) (name : String) : Option (Int × Nat) :=
  (c.profiles.find? (fun e => e.1 == name)).map (fun e => e.2)

/-- Modelled from the spec: cache population; the newest entry for a name
wins on lookup. -/
def KeyCache.add_profile (c : KeyCache) (name : String) (pid : Int) (key : Nat) : KeyCache :=
  ⟨c.store_key, (name, pid, key) :: c.profiles⟩

/-- Modelled from the spec: KeyCache load_key unwraps an encrypted profile
key using the store key currently held by the cache. -/
def KeyCache.load_key (c : KeyCache) (w : WrappedKey) : Except Error Nat :=
  unwrap_key c.store_key w

/-- Modelled from the spec: ciphertext values produced by the entry codec.
Category and name use deterministic encryption under the profile key; the
value is additionally bound to its category and name as associated context;
tag values use deterministic encryption under the profile key. -/
inductive CtBytes
  | catCt (key : Nat) (category : String)
  | nameCt (key : Nat) (name : String)
  | valCt (key : Nat) (category : String) (name : String) (value : List Nat)
  | tagCt (key : Nat) (value : String)
deriving DecidableEq

/-- Modelled from the spec: ProfileKey prepare_input buffers the input
bytes; on the logical level it is the identity on the content. -/
def prepare_input (s : String) : String := s

/-- Modelled from the spec: deterministic encryption of an entry category. -/
def encrypt_entry_category (key : Nat) (category : String) : CtBytes :=
  CtBytes.catCt key category

/-- Modelled from the spec: deterministic encryption of an entry name. -/
def encrypt_entry_name (key : Nat) (name : String) : CtBytes :=
  CtBytes.nameCt key name

/-- Modelled from the spec: encryption of an entry value with category and
name as associated context. -/
def encrypt_entry_value (key : Nat) (category : String) (name : String)
    (value : List Nat) : CtBytes :=
  CtBytes.valCt key category name value

/-- A plaintext entry tag as supplied by a caller of update. -/
structure EntryTag where
  name : String
  value : String
  plaintext : Bool
deriving DecidableEq

/-- A stored tag value: either kept in cleartext (plaintext tags) or
encrypted under the profile key. -/
inductive TagStored
  | plain (v : String)
  | enc (ct : CtBytes)
deriving DecidableEq

/-- An encrypted tag ready for insertion, before the owning item id is
attached. -/
structure EncTag where
  name : String
  value : TagStored
  plaintext : Bool
deriving DecidableEq

/-- Modelled from the spec: encrypt_entry_tags leaves plaintext tags as-is
and encrypts the value of each non-plaintext tag under the profile key. -/
def encrypt_entry_tags (key : Nat) (ts : List EntryTag) : List EncTag :=
  ts.map (fun t =>
    if t.plaintext then ⟨t.name, TagStored.plain t.value, true⟩
    else ⟨t.name, TagStored.enc (CtBytes.tagCt key t.value), false⟩)

/-- Modelled from the spec: rendering of an expiry timestamp (db_utils
expiry_timestamp plus the string formatting in update); abstracted as a
decimal rendering of the offset. -/
def fmt_timestamp (ms : Int) : String := toString ms

/-- The record kind discriminant (entry.rs EntryKind). -/
inductive EntryKind
  | Kms
  | Item
deriving DecidableEq

/-- The integer code stored in the kind column, matching the cast to i16 in
the source. -/
def EntryKind.code : EntryKind → Int
  | EntryKind.Kms => 1
  | EntryKind.Item => 2

/-- The three row operations of update (entry.rs EntryOperation). -/
inductive EntryOperation
  | Insert
  | Replace
  | Remove
deriving DecidableEq

/-- A decrypted entry as returned by read operations. -/
structure Entry where
  kind : EntryKind
  category : String
  name : String
  value : List Nat
  tags : List EntryTag
deriving DecidableEq

/-- Modelled from the spec: opaque tag-filter AST (entry.rs, not under the
analysed source tree); the excerpt never inspects it. -/
def TagFilter : Type := Unit

/-- Modelled from the spec: opaque ordering selector (backend OrderBy); the
excerpt never inspects it. -/
def OrderBy : Type := Unit

/-- A row of the profiles table: id, unique name, wrapped profile key. -/
structure ProfileRow where
  id : Int
  name : String
  profile_key : WrappedKey
deriving DecidableEq

/-- A row of the items table; category, name and value hold ciphertexts,
the expiry column holds the rendered timestamp string or NULL. -/
structure ItemRow where
  id : Int
  profile_id : Int
  kind : Int
  category : CtBytes
  name : CtBytes
  value : CtBytes
  expiry : Option String
deriving DecidableEq

/-- A row of the items_tags table. -/
structure TagRow where
  item_id : Int
  name : String
  value : TagStored
  plaintext : Bool
deriving DecidableEq

/-- The logical database state: the config rows named key and
default_profile, plus the profiles, items and items_tags tables. The two
counters model the storage-assigned row identifiers. The configKey field
holds the identity of the store key recorded in the config row named key
(URI serialization abstracted). -/
structure Db where
  configKey : Nat
  defaultProfile : String
  profiles : List ProfileRow
  items : List ItemRow
  itemsTags : List TagRow
  nextProfileId : Int
  nextItemId : Int
deriving DecidableEq

/-- The WHERE clause shared by GET_ITEM_ID, UPDATE_ITEM and DELETE_ITEM:
match on profile id, kind code, encrypted category and encrypted name. -/
def item_matches (it : ItemRow) (pid : Int) (kindCode : Int) (ec en : CtBytes) : Bool :=
  it.profile_id == pid && it.kind == kindCode && it.category == ec && it.name == en

/-- The GET_ITEM_ID query: id of the first item row matching the identity
tuple. -/
def get_item_id (db : Db) (pid : Int) (kindCode : Int) (ec en : CtBytes) : Option Int :=
  (db.items.find? (fun it => item_matches it pid kindCode ec en)).map (fun it => it.id)

/-- OdbcBackend create_profile (mod.rs lines 84-117): wrap a fresh profile
key under the store key held by the key cache, INSERT_PROFILE, read back
the assigned id, populate the cache. The random name and fresh key material
are supplied as parameters (rname, freshKey); the uniqueness constraint on
the name column comes from the schema (provision module, modelled from the
spec) and surfaces as a Duplicate error. -/
def create_profile (cache : KeyCache) (db : Db) (nameOpt : Option String)
    (rname : String) (freshKey : Nat) : Except Error (Db × KeyCache × String) :=
  let name := nameOpt.getD rname
  let enc_key := encode_profile_key freshKey cache.store_key
  if db.profiles.any (fun r => r.name == name) then
    Except.error ⟨ErrorKind.Duplicate, "Duplicate profile name"⟩
  else
    let pid := db.nextProfileId
    let db1 : Db := { db with
      profiles := db.profiles ++ [⟨pid, name, enc_key⟩],
      nextProfileId := pid + 1 }
    Except.ok (db1, cache.add_profile name pid freshKey, name)

/-- OdbcBackend list_profiles (mod.rs lines 144-164): on a query failure
return Unsupported; otherwise bind a row buffer of capacity 10
(RowVec new 10), fetch a single batch from the cursor and return the names
it contains. The readFails flag models a failing GET_PROFILE_NAMES
execution. -/
def list_profiles (readFails : Bool) (db : Db) : Except Error (List String) :=
  if readFails then
    Except.error ⟨ErrorKind.Unsupported, "Configuration data not found"⟩
  else
    Except.ok ((db.profiles.map (fun r => r.name)).take 10)

/-- OdbcBackend remove_profile (mod.rs lines 166-190): count the rows with
the given name (GET_PROFILE_COUNT_FOR_NAME); when positive, DELETE_PROFILE
and return true, otherwise return false without touching storage. -/
def remove_profile (db : Db) (name : String) : Db × Except Error Bool :=
  let count := db.profiles.countP (fun r => r.name == name)
  if 0 < count then
    ({ db with profiles := db.profiles.filter (fun r => !(r.name == name)) },
      Except.ok true)
  else
    (db, Except.ok false)

/-- Fault model for the storage writes issued by rekey: failure of the
GET_PROFILES read, of the UPDATE_PROFILE write for a given profile id, and
of the UPDATE_CONFIG_KEY write. -/
structure RekeyFaults where
  readProfiles : Bool
  updProfile : Int → Bool
  updConfig : Bool

/-- A storage write performed by rekey, recorded in issue order. -/
inductive DbWrite
  | updProfile (pid : Int) (key : WrappedKey)
  | updConfigKey (r : Nat)
deriving DecidableEq

/-- Result of a rekey run: the final database state, the key cache after
the run (the source never mutates the cache during rekey), the ordered
trace of storage writes performed, and the returned value. -/
structure RekeyOut where
  db : Db
  cache : KeyCache
  trace : List DbWrite
  res : Except Error Unit

/-- The UPDATE_PROFILE statement: overwrite the wrapped key of the profile
row with the given id. -/
def db_update_profile (db : Db) (pid : Int) (k : WrappedKey) : Db :=
  { db with profiles := db.profiles.map (fun r =>
      if r.id == pid then ⟨r.id, r.name, k⟩ else r) }

/-- Ordered-map insertion as performed by the BTreeMap that rekey uses to
snapshot the profile rows: keys kept in ascending order, an existing key is
overwritten. -/
def btree_insert : List (Int × WrappedKey) → Int → WrappedKey → List (Int × WrappedKey)
  | [], k, v => [(k, v)]
  | (k', v') :: rest, k, v =>
    if k < k' then (k, v) :: (k', v') :: rest
    else if k = k' then (k, v) :: rest
    else (k', v') :: btree_insert rest k v

/-- The snapshot taken by rekey: every (id, profile_key) pair of the
profiles table, collected into the BTreeMap upd_keys. -/
def snapshot_profiles (db : Db) : List (Int × WrappedKey) :=
  db.profiles.foldl (fun m r => btree_insert m r.id r.profile_key) []

/-- The per-profile loop of rekey (mod.rs lines 228-238): for each
snapshotted pair, unwrap the key via the cache, re-wrap it under the new
store key and issue UPDATE_PROFILE; the first failure aborts the loop and
is returned, leaving the database and trace as accumulated so far. -/
def rekey_loop (f : RekeyFaults) (cache : KeyCache) (newKey : Nat) :
    List (Int × WrappedKey) → Db → List DbWrite → Db × List DbWrite × Option Error
  | [], db, tr => (db, tr, none)
  | (pid, wk) :: rest, db, tr =>
    match cache.load_key wk with
    | Except.error e => (db, tr, some e)
    | Except.ok pk =>
      if f.updProfile pid then (db, tr, some backendErr)
      else
        rekey_loop f cache newKey rest
          (db_update_profile db pid (encode_profile_key pk newKey))
          (tr ++ [DbWrite.updProfile pid (encode_profile_key pk newKey)])

/-- OdbcBackend rekey (mod.rs lines 192-246): resolve the new store key
(its identity is the newKey parameter; derivation failure aside), snapshot
all profile rows (a failing GET_PROFILES surfaces as Unsupported), run the
re-wrap loop, and only then issue UPDATE_CONFIG_KEY recording the new store
key. The key cache is returned unchanged: the source performs no cache
mutation anywhere in rekey. -/
def rekey (f : RekeyFaults) (cache : KeyCache) (db : Db) (newKey : Nat) : RekeyOut :=
  if f.readProfiles then
    ⟨db, cache, [], Except.error ⟨ErrorKind.Unsupported, "Configuration data not found"⟩⟩
  else
    match rekey_loop f cache newKey (snapshot_profiles db) db [] with
    | (db1, tr, some e) => ⟨db1, cache, tr, Except.error e⟩
    | (db1, tr, none) =>
      if f.updConfig then ⟨db1, cache, tr, Except.error backendErr⟩
      else
        ⟨{ db1 with configKey := newKey }, cache,
          tr ++ [DbWrite.updConfigKey newKey], Except.ok ()⟩

/-- OdbcBackend scan (mod.rs lines 248-261): an unimplemented stub that
fails with Unsupported and issues no storage operation; the state is
returned untouched. -/
def scan (db : Db) (profile : Option String) (kind : Option EntryKind)
    (category : Option String) (tag_filter : Option TagFilter)
    (offset : Option Int) (limit : Option Int) (order_by : Option OrderBy)
    (descending : Bool) : Db × Except Error (List Entry) :=
  (db, Except.error ⟨ErrorKind.Unsupported, "mod::scan()"⟩)

/-- OdbcSession acquire_key (mod.rs lines 310-335): on a cache hit return
the cached pair; on a miss read the profile row (GET_PROFILE) — absence of
the row yields NotFound — then unwrap the key via the cache and populate
the cache. -/
def acquire_key (cache : KeyCache) (db : Db) (profile : String) :
    Except Error ((Int × Nat) × KeyCache) :=
  match cache.get_profile profile with
  | some pk => Except.ok (pk, cache)
  | none =>
    match db.profiles.find? (fun r => r.name == profile) with
    | some row =>
      match cache.load_key row.profile_key with
      | Except.error e => Except.error e
      | Except.ok key =>
        Except.ok ((row.id, key), cache.add_profile profile row.id key)
    | none => Except.error ⟨ErrorKind.NotFound, "Profile not found"⟩

/-- OdbcSession count (mod.rs lines 339-349): an unimplemented stub that
prepares the encrypted category and then returns the constant 5, touching
neither the filters nor the stored entries. -/
def count (db : Db) (kind : Option EntryKind) (category : Option String)
    (tag_filter : Option TagFilter) : Except Error Int :=
  let _enc_category := category.map prepare_input
  Except.ok 5

/-- OdbcSession fetch (mod.rs lines 351-363): an unimplemented stub that
always returns no entry. -/
def fetch (db : Db) (cache : KeyCache) (profile : String) (kind : EntryKind)
    (category : String) (name : String) (for_update : Bool) :
    Except Error (Option Entry) :=
  Except.ok none

/-- OdbcSession fetch_all (mod.rs lines 365-378): an unimplemented stub
that fails with Unsupported and issues no storage operation. -/
def fetch_all (db : Db) (kind : Option EntryKind) (category : Option String)
    (tag_filter : Option TagFilter) (limit : Option Int)
    (order_by : Option OrderBy) (descending : Bool) (for_update : Bool) :
    Db × Except Error (List Entry) :=
  (db, Except.error ⟨ErrorKind.Unsupported, "mod::fetch_all()"⟩)

/-- OdbcSession remove_all (mod.rs lines 380-390): an unimplemented stub
that prepares the encrypted category, fails with Unsupported and issues no
storage operation. -/
def remove_all (db : Db) (kind : Option EntryKind) (category : Option String)
    (tag_filter : Option TagFilter) : Db × Except Error Int :=
  let _enc_category := category.map prepare_input
  (db, Except.error ⟨ErrorKind.Unsupported, "mod::remove_all()"⟩)

/-- OdbcSession update (mod.rs lines 392-547). Insert and Replace: resolve
the profile key, encrypt category, name, value and tags; Insert issues
INSERT_ITEM (the identity-tuple uniqueness constraint of the schema is
modelled from the spec as a Duplicate error), Replace issues UPDATE_ITEM on
the identity tuple and then executes DELETE_TAG bound to pid exactly as the
source does (the statement deletes the items_tags rows whose item_id equals
the session profile id); when tags were supplied, GET_ITEM_ID retrieves the
item id (the source unwraps the missing-row case, modelled as a Backend
error) and one INSERT_TAG per tag follows. Remove: resolve the key, encrypt
category and name, issue DELETE_ITEM and succeed regardless of whether a
row existed. -/
def update (cache : KeyCache) (db : Db) (profile : String) (kind : EntryKind)
    (op : EntryOperation) (category : String) (name : String)
    (value : Option (List Nat)) (tags : Option (List EntryTag))
    (expiry_ms : Option Int) : Except Error (Db × KeyCache) :=
  let category := prepare_input category
  let name := prepare_input name
  match op with
  | EntryOperation.Insert | EntryOperation.Replace =>
    let value := value.getD []
    (do
      let r ← acquire_key cache db profile
      let pid := r.1.1
      let key := r.1.2
      let cache1 := r.2
      let enc_category := encrypt_entry_category key category
      let enc_name := encrypt_entry_name key name
      let enc_value := encrypt_entry_value key category name value
      let enc_tags := tags.map (fun t => encrypt_entry_tags key t)
      let expiryStr := match expiry_ms with
        | none => ""
        | some ms => fmt_timestamp ms
      let db1 ←
        if op = EntryOperation.Insert then
          if db.items.any (fun it => item_matches it pid kind.code enc_category enc_name) then
            Except.error ⟨ErrorKind.Duplicate, "Duplicate row"⟩
          else
            Except.ok { db with
              items := db.items ++
                [⟨db.nextItemId, pid, kind.code, enc_category, enc_name, enc_value,
                  if expiryStr = "" then none else some expiryStr⟩],
              nextItemId := db.nextItemId + 1 }
        else
          let dbU : Db := { db with items := db.items.map (fun it =>
            if item_matches it pid kind.code enc_category enc_name then
              { it with
                value := enc_value,
                expiry := if expiryStr = "" then none else some expiryStr }
            else it) }
          Except.ok { dbU with
            itemsTags := dbU.itemsTags.filter (fun t => !(t.item_id == pid)) }
      match enc_tags with
      | none => Except.ok (db1, cache1)
      | some ts =>
        match get_item_id db1 pid kind.code enc_category enc_name with
        | none => Except.error ⟨ErrorKind.Backend, "missing item row"⟩
        | some iid =>
          let tagRows := ts.map (fun t => (⟨iid, t.name, t.value, t.plaintext⟩ : TagRow))
          Except.ok ({ db1 with itemsTags := db1.itemsTags ++ tagRows }, cache1))
  | EntryOperation.Remove =>
    (do
      let r ← acquire_key cache db profile
      let pid := r.1.1
      let key := r.1.2
      let cache1 := r.2
      let enc_category := encrypt_entry_category key category
      let enc_name := encrypt_entry_name key name
      Except.ok ({ db with items := db.items.filter (fun it =>
          !(item_matches it pid kind.code enc_category enc_name)) }, cache1))

/-! Concrete fixtures used by the witness and counterexample theorems. -/

/-- A fault-free rekey run. -/
def noFaults : RekeyFaults := ⟨false, fun _ => false, false⟩

/-- A rekey run in which every UPDATE_PROFILE write fails. -/
def faultUpd : RekeyFaults := ⟨false, fun _ => true, false⟩

/-- A cache holding store key 0 and no profile entries. -/
def cacheA : KeyCache := ⟨0, []⟩

/-- A store with one profile (alice) wrapped under store key 0. -/
def dbA : Db :=
  ⟨0, "alice", [⟨1, "alice", ⟨5, 0⟩⟩], [], [], 2, 1⟩

/-- A cache with store key 0 holding the key of profile alice. -/
def cacheB : KeyCache := ⟨0, [("alice", (1, 42))]⟩

/-- The item row of profile alice used in the replace scenario: item id 5,
profile id 1. -/
def itemAlice : ItemRow :=
  ⟨5, 1, EntryKind.Item.code, encrypt_entry_category 42 "c1",
    encrypt_entry_name 42 "n1", encrypt_entry_value 42 "c1" "n1" [9], none⟩

/-- An unrelated item row of profile carol whose item id happens to equal
alice's profile id. -/
def itemOther : ItemRow :=
  ⟨1, 3, EntryKind.Item.code, encrypt_entry_category 7 "x",
    encrypt_entry_name 7 "y", encrypt_entry_value 7 "x" "y" [], none⟩

/-- A pre-existing tag attached to alice's entry (item id 5). -/
def oldTag : TagRow := ⟨5, "old", TagStored.plain "ov", true⟩

/-- A pre-existing tag attached to carol's entry (item id 1). -/
def otherTag : TagRow := ⟨1, "t9", TagStored.plain "v9", true⟩

/-- The store used for the replace scenario. -/
def dbB : Db :=
  ⟨0, "alice", [⟨1, "alice", ⟨42, 0⟩⟩, ⟨3, "carol", ⟨7, 0⟩⟩],
    [itemAlice, itemOther], [oldTag, otherTag], 4, 6⟩

/-- A cache with store key 0 holding the key of profile alice, for the
insert-then-fetch scenario. -/
def cacheC : KeyCache := ⟨0, [("alice", (1, 42))]⟩

/-- A store with profile alice and no items. -/
def dbC : Db :=
  ⟨0, "alice", [⟨1, "alice", ⟨42, 0⟩⟩], [], [], 2, 1⟩

/-- A store with eleven profiles, for the list_profiles batch-size
scenario. -/
def dbEleven : Db :=
  ⟨0, "p0",
    [⟨1, "p0", ⟨10, 0⟩⟩, ⟨2, "p1", ⟨11, 0⟩⟩, ⟨3, "p2", ⟨12, 0⟩⟩,
     ⟨4, "p3", ⟨13, 0⟩⟩, ⟨5, "p4", ⟨14, 0⟩⟩, ⟨6, "p5", ⟨15, 0⟩⟩,
     ⟨7, "p6", ⟨16, 0⟩⟩, ⟨8, "p7", ⟨17, 0⟩⟩, ⟨9, "p8", ⟨18, 0⟩⟩,
     ⟨10, "p9", ⟨19, 0⟩⟩, ⟨11, "p10", ⟨20, 0⟩⟩],
    [], [], 12, 1⟩

/-- A completely empty store. -/
def dbEmpty : Db := ⟨0, "", [], [], [], 1, 1⟩

end Odbc

namespace Odbc

/-! Helper lemmas about the per-profile rekey loop. -/

/-- The loop never touches the config row: the configKey of the state it
returns is the configKey it started from. -/
theorem rekey_loop_configKey (f : RekeyFaults) (cache : KeyCache) (newKey : Nat) :
    ∀ (l : List (Int × WrappedKey)) (db : Db) (tr : List DbWrite),
      (rekey_loop f cache newKey l db tr).1.configKey = db.configKey := by
  intro l
  induction l with
  | nil => intro db tr; rfl
  | cons hd tl ih =>
    intro db tr
    obtain ⟨pid, wk⟩ := hd
    simp only [rekey_loop]
    split
    · rfl
    · split
      · rfl
      · rw [ih]
        rfl

/-- Every write the loop appends to the trace is a profile update. -/
theorem rekey_loop_trace (f : RekeyFaults) (cache : KeyCache) (newKey : Nat) :
    ∀ (l : List (Int × WrappedKey)) (db : Db) (tr : List DbWrite),
      ∃ suf, (rekey_loop f cache newKey l db tr).2.1 = tr ++ suf ∧
        ∀ w ∈ suf, ∃ pid k, w = DbWrite.updProfile pid k := by
  intro l
  induction l with
  | nil =>
    intro db tr
    exact ⟨[], by simp [rekey_loop], fun w hw => absurd hw (List.not_mem_nil w)⟩
  | cons hd tl ih =>
    intro db tr
    obtain ⟨pid, wk⟩ := hd
    simp only [rekey_loop]
    split
    · exact ⟨[], by simp, fun w hw => absurd hw (List.not_mem_nil w)⟩
    · rename_i pk _
      split
      · exact ⟨[], by simp, fun w hw => absurd hw (List.not_mem_nil w)⟩
      · obtain ⟨suf, h1, h2⟩ := ih (db_update_profile db pid (encode_profile_key pk newKey))
          (tr ++ [DbWrite.updProfile pid (encode_profile_key pk newKey)])
        refine ⟨DbWrite.updProfile pid (encode_profile_key pk newKey) :: suf, ?_, ?_⟩
        · rw [h1, List.append_assoc]
          rfl
        · intro w hw
          rcases List.mem_cons.mp hw with heq | hmem
          · exact ⟨pid, encode_profile_key pk newKey, heq⟩
          · exact h2 w hmem

/-- When the loop finishes without an error, the trace it returns contains
a profile update for every pair of the list it was given. -/
theorem rekey_loop_covers (f : RekeyFaults) (cache : KeyCache) (newKey : Nat) :
    ∀ (l : List (Int × WrappedKey)) (db : Db) (tr : List DbWrite),
      (rekey_loop f cache newKey l db tr).2.2 = none →
      ∀ p ∈ l, ∃ k, DbWrite.updProfile p.1 k ∈ (rekey_loop f cache newKey l db tr).2.1 := by
  intro l
  induction l with
  | nil => intro db tr _ p hp; exact absurd hp (List.not_mem_nil p)
  | cons hd tl ih =>
    intro db tr hnone p hp
    obtain ⟨pid, wk⟩ := hd
    simp only [rekey_loop] at hnone ⊢
    cases hlk : cache.load_key wk with
    | error e =>
      rw [hlk] at hnone
      simp at hnone
    | ok pk =>
      rw [hlk] at hnone
      dsimp only at hnone ⊢
      by_cases hf : f.updProfile pid = true
      · rw [if_pos hf] at hnone
        simp at hnone
      · rw [if_neg hf] at hnone ⊢
        rcases List.mem_cons.mp hp with heq | hmem
        · obtain ⟨suf, h1, _⟩ := rekey_loop_trace f cache newKey tl
            (db_update_profile db pid (encode_profile_key pk newKey))
            (tr ++ [DbWrite.updProfile pid (encode_profile_key pk newKey)])
          refine ⟨encode_profile_key pk newKey, ?_⟩
          rw [heq, h1]
          simp
        · exact ih _ _ hnone p hmem

/-- Claim C1: for every rekey invocation, the new store key reference is
written to the config table only after the re-wrapped encrypted_key has
been written back for every profile read in the snapshot; if reading,
unwrapping, re-wrapping or writing any profile key fails, rekey returns
that error and the store-key config row is left unchanged. -/
theorem rekey_config_written_last (f : RekeyFaults) (cache : KeyCache) (db : Db) (newKey : Nat) :
    (∀ e, (rekey f cache db newKey).res = Except.error e →
      (rekey f cache db newKey).db.configKey = db.configKey ∧
      ∀ r, DbWrite.updConfigKey r ∉ (rekey f cache db newKey).trace) ∧
    ((rekey f cache db newKey).res = Except.ok () →
      ∃ pre, (rekey f cache db newKey).trace = pre ++ [DbWrite.updConfigKey newKey] ∧
        (∀ w ∈ pre, ∃ pid k, w = DbWrite.updProfile pid k) ∧
        (∀ p ∈ snapshot_profiles db, ∃ k, DbWrite.updProfile p.1 k ∈ pre)) := by
  unfold rekey
  by_cases hr : f.readProfiles = true
  · rw [if_pos hr]
    constructor
    · intro e _
      exact ⟨rfl, fun r hmem => absurd hmem (List.not_mem_nil _)⟩
    · intro hok
      exact absurd hok (by simp)
  · rw [if_neg hr]
    obtain ⟨suf, hsuf, hsufP⟩ := rekey_loop_trace f cache newKey (snapshot_profiles db) db []
    rw [List.nil_append] at hsuf
    have hck := rekey_loop_configKey f cache newKey (snapshot_profiles db) db []
    have hcov := rekey_loop_covers f cache newKey (snapshot_profiles db) db []
    rcases hloop : rekey_loop f cache newKey (snapshot_profiles db) db [] with ⟨db1, tr1, err1⟩
    rw [hloop] at hsuf hck hcov
    dsimp only at hsuf hck hcov ⊢
    cases err1 with
    | some e' =>
      dsimp only
      constructor
      · intro e _
        refine ⟨hck, ?_⟩
        intro r hmem
        rw [hsuf] at hmem
        obtain ⟨pid, k, hw⟩ := hsufP _ hmem
        exact DbWrite.noConfusion hw
      · intro hok
        exact absurd hok (by simp)
    | none =>
      dsimp only
      by_cases hc : f.updConfig = true
      · rw [if_pos hc]
        constructor
        · intro e _
          refine ⟨hck, ?_⟩
          intro r hmem
          rw [hsuf] at hmem
          obtain ⟨pid, k, hw⟩ := hsufP _ hmem
          exact DbWrite.noConfusion hw
        · intro hok
          exact absurd hok (by simp)
      · rw [if_neg hc]
        constructor
        · intro e he
          exact absurd he (by simp)
        · intro _
          refine ⟨tr1, rfl, ?_, ?_⟩
          · intro w hw
            rw [hsuf] at hw
            exact hsufP w hw
          · exact hcov rfl

/-- Witness for claim C1: both branches of the theorem applied at concrete
inputs — a fault-free run over the one-profile store, and a run in which
the profile-row write fails. -/
theorem rekey_config_written_last_witness :
    (∃ pre, (rekey noFaults cacheA dbA 1).trace = pre ++ [DbWrite.updConfigKey 1] ∧
      (∀ w ∈ pre, ∃ pid k, w = DbWrite.updProfile pid k) ∧
      (∀ p ∈ snapshot_profiles dbA, ∃ k, DbWrite.updProfile p.1 k ∈ pre)) ∧
    ((rekey faultUpd cacheA dbA 1).db.configKey = dbA.configKey ∧
      ∀ r, DbWrite.updConfigKey r ∉ (rekey faultUpd cacheA dbA 1).trace) :=
  ⟨(rekey_config_written_last noFaults cacheA dbA 1).2 rfl,
    (rekey_config_written_last faultUpd cacheA dbA 1).1 backendErr rfl⟩

end Odbc

namespace Odbc

/-- Claim C2 (refuting evaluation): rekey performs no key-cache mutation,
so after a successful rekey the cache still holds the old store key; a
subsequent create_profile wraps the fresh profile key under that stale
store key, and the new profile's persisted encrypted_key fails to unwrap
under the store key recorded in the config table. -/
theorem rekey_then_create_profile_inconsistent :
    (rekey noFaults cacheA dbA 1).res = Except.ok () ∧
    (rekey noFaults cacheA dbA 1).db.configKey = 1 ∧
    (rekey noFaults cacheA dbA 1).cache = cacheA ∧
    ∃ q, create_profile (rekey noFaults cacheA dbA 1).cache (rekey noFaults cacheA dbA 1).db
        (some "bob") "rnd" 7 = Except.ok q ∧
      ∃ row ∈ q.1.profiles, row.name = "bob" ∧
        unwrap_key q.1.configKey row.profile_key = Except.error cryptoErr := by
  refine ⟨rfl, rfl, rfl, _, rfl, ⟨2, "bob", ⟨7, 0⟩⟩, ?_, rfl, rfl⟩
  decide

/-- Claim C3 (refuting evaluation): on Replace the source binds DELETE_TAG
to the session profile id instead of the entry's item id, so a tag row
attached to the replaced entry (item id 5) survives the replace while an
unrelated tag row whose item id equals the profile id (1) is deleted. -/
theorem replace_leaves_stale_tags :
    ∃ q, update cacheB dbB "alice" EntryKind.Item EntryOperation.Replace "c1" "n1"
        (some [1, 2, 3]) (some [⟨"t1", "v1", true⟩]) none = Except.ok q ∧
      oldTag ∈ q.1.itemsTags ∧
      (⟨5, "t1", TagStored.plain "v1", true⟩ : TagRow) ∈ q.1.itemsTags ∧
      otherTag ∉ q.1.itemsTags := by
  refine ⟨_, rfl, ?_, ?_, ?_⟩ <;> decide

/-- Claim C4: when the profile name is neither in the key cache nor in the
profiles table, key resolution fails with the NotFound error. -/
theorem acquire_key_unknown_profile_not_found (cache : KeyCache) (db : Db) (profile : String)
    (h1 : cache.get_profile profile = none)
    (h2 : db.profiles.find? (fun r => r.name == profile) = none) :
    acquire_key cache db profile = Except.error ⟨ErrorKind.NotFound, "Profile not found"⟩ := by
  unfold acquire_key
  rw [h1, h2]

/-- Witness for claim C4: the empty cache and the empty store at the
profile name ghost. -/
theorem acquire_key_unknown_profile_not_found_witness :
    acquire_key cacheA dbEmpty "ghost" =
      Except.error ⟨ErrorKind.NotFound, "Profile not found"⟩ :=
  acquire_key_unknown_profile_not_found cacheA dbEmpty "ghost" rfl rfl

/-- Claim C5 (refuting evaluation): the insert stores the encrypted value,
but fetch is an unimplemented stub and returns no entry for the same kind,
category and name, so the write-then-read round trip fails. -/
theorem insert_then_fetch_returns_none :
    ∃ q, update cacheC dbC "alice" EntryKind.Item EntryOperation.Insert "c1" "n1"
        (some [1, 2, 3]) none none = Except.ok q ∧
      (∃ it ∈ q.1.items, it.value = encrypt_entry_value 42 "c1" "n1" [1, 2, 3]) ∧
      fetch q.1 q.2 "alice" EntryKind.Item "c1" "n1" false = Except.ok none := by
  refine ⟨_, rfl, ⟨⟨1, 1, 2, encrypt_entry_category 42 "c1", encrypt_entry_name 42 "n1",
    encrypt_entry_value 42 "c1" "n1" [1, 2, 3], none⟩, ?_, rfl⟩, rfl⟩
  decide

/-- Claim C6 (refuting evaluation): on a store holding eleven profiles,
list_profiles returns only the first ten names (one fetched batch of the
capacity-ten row buffer), and an unreachable profile table surfaces as
Unsupported. -/
theorem list_profiles_truncates_at_ten :
    dbEleven.profiles.length = 11 ∧
    list_profiles false dbEleven =
      Except.ok ["p0", "p1", "p2", "p3", "p4", "p5", "p6", "p7", "p8", "p9"] ∧
    list_profiles true dbEleven =
      Except.error ⟨ErrorKind.Unsupported, "Configuration data not found"⟩ :=
  ⟨rfl, rfl, rfl⟩

/-- Claim C7: remove_profile deletes the profile row and returns true
exactly when a row with the given name exists, and otherwise returns false
leaving the store untouched. -/
theorem remove_profile_existence_checked (db : Db) (name : String) :
    remove_profile db name =
      if db.profiles.any (fun r => r.name == name) then
        ({ db with profiles := db.profiles.filter (fun r => !(r.name == name)) },
          Except.ok true)
      else (db, Except.ok false) := by
  have hiff : (0 < db.profiles.countP (fun r => r.name == name)) ↔
      (db.profiles.any (fun r => r.name == name) = true) := by
    rw [List.countP_pos_iff, List.any_eq_true]
  simp only [remove_profile]
  exact if_congr hiff rfl rfl

/-- Claim C8: update with operation Remove succeeds whenever the profile
key resolves, for every store state — in particular when no entry with the
given identity tuple exists. -/
theorem remove_nonexistent_succeeds (cache : KeyCache) (db : Db) (profile : String)
    (kind : EntryKind) (category name : String) (r : (Int × Nat) × KeyCache)
    (hk : acquire_key cache db profile = Except.ok r) :
    ∃ q, update cache db profile kind EntryOperation.Remove category name none none none =
      Except.ok q := by
  unfold update
  dsimp only
  rw [hk]
  exact ⟨_, rfl⟩

/-- Witness for claim C8: removing a never-inserted entry from the empty
item table of the alice store succeeds. -/
theorem remove_nonexistent_succeeds_witness :
    ∃ q, update cacheC dbC "alice" EntryKind.Item EntryOperation.Remove "c" "n"
        none none none = Except.ok q :=
  remove_nonexistent_succeeds cacheC dbC "alice" EntryKind.Item "c" "n" ((1, 42), cacheC) rfl

/-- Claim C9: the session count operation returns the constant 5 for every
filter combination and every store state. -/
theorem count_returns_five (db : Db) (kind : Option EntryKind) (category : Option String)
    (tag_filter : Option TagFilter) :
    count db kind category tag_filter = Except.ok 5 := rfl

/-- Claim C10: scan, fetch_all and remove_all fail with an Unsupported
error for every input and return the store state untouched. -/
theorem unsupported_stubs (db : Db) (profile : Option String) (kind : Option EntryKind)
    (category : Option String) (tf : Option TagFilter) (offset limit : Option Int)
    (ob : Option OrderBy) (descending for_update : Bool) :
    scan db profile kind category tf offset limit ob descending =
      (db, Except.error ⟨ErrorKind.Unsupported, "mod::scan()"⟩) ∧
    fetch_all db kind category tf limit ob descending for_update =
      (db, Except.error ⟨ErrorKind.Unsupported, "mod::fetch_all()"⟩) ∧
    remove_all db kind category tf =
      (db, Except.error ⟨ErrorKind.Unsupported, "mod::remove_all()"⟩) :=
  ⟨rfl, rfl, rfl⟩

end Odbc
